import Mathlib

/-!
Verification of the abogen TTS backend layer (`abogen/tts_backends/`).

The development shallowly embeds the pure control and data flow of
`f5_tts_backend.py`, `kokoro_backend.py` and `__init__.py`:

* Python strings are `String`/`List Char`; `str.strip`, `str.split` and the
  sentence-splitting regex `(?<=[.!?])\s+` are translated character by
  character (ASCII whitespace model).
* Filesystem probes (`Path(...).exists()`), the third-party inference call
  (`F5TTS.infer`), the third-party splitter (`re.split` for a custom
  pattern), the Kokoro pipeline and the per-engine import checks are
  uninterpreted function parameters: they are external collaborators, and
  the theorems quantify over their behaviour.
* Python exceptions become explicit error values; a generator-based
  synthesis call becomes a function returning the trace of inference calls
  it issued, the list of results it yielded, and the terminal error, if any.
* Numeric synthesis parameters that the layer only forwards (never computes
  with) are modelled as `ℚ`.
-/

namespace Abogen

/-! ## Python string primitives -/

/-- ASCII model of Python's `str.isspace` / regex `\s` character class. -/
def pyIsSpace (c : Char) : Bool :=
  c == ' ' || c == '\t' || c == '\n' || c == '\r' || c == '\x0b' || c == '\x0c'

/-- Python `str.strip()` on a character list: drop whitespace on both ends. -/
def pyStrip (l : List Char) : List Char :=
  ((l.dropWhile pyIsSpace).reverse.dropWhile pyIsSpace).reverse

/-- Python `str.strip()` on a `String`. -/
def pyStripStr (s : String) : String := ⟨pyStrip s.data⟩

/-- Helper loop for `pySplitWs`: `cur` holds the current word, reversed. -/
def pySplitWsAux (cur : List Char) : List Char → List (List Char)
  | [] => if cur = [] then [] else [cur.reverse]
  | c :: rest =>
    if pyIsSpace c then
      if cur = [] then pySplitWsAux [] rest
      else cur.reverse :: pySplitWsAux [] rest
    else pySplitWsAux (c :: cur) rest

/-- Python `str.split()` (no argument): whitespace-separated words, no empties. -/
def pySplitWs (l : List Char) : List (List Char) := pySplitWsAux [] l

/-- `len(sentence.split())` — the word count used by the chunker's budget. -/
def wordCount (l : List Char) : Nat := (pySplitWs l).length

/-! ## The sentence splitter: `re.split(r'(?<=[.!?])\s+', text)`

The regex matches a maximal whitespace run whose preceding character is
sentence-terminal punctuation; `re.split` cuts the text at every such run.
`splitSentencesAux` scans left to right, `acc` holding the current piece
reversed, so the lookbehind is the head of `acc`. -/

/-- Sentence-terminal punctuation of the lookbehind `(?<=[.!?])`. -/
def isSentEnd (c : Char) : Bool := c == '.' || c == '!' || c == '?'

/-- Is the previous character (head of the reversed current piece `acc`)
sentence-terminal punctuation?  This is the lookbehind `(?<=[.!?])`. -/
def headSentEnd (acc : List Char) : Bool :=
  match acc with
  | p :: _ => isSentEnd p
  | [] => false

/-- Scanner for the sentence split.  `acc` holds the current piece reversed.
A match of `\s+` with the lookbehind satisfied begins exactly when the
current character is whitespace and the previous character is
sentence-terminal punctuation; `skipping = true` while the (greedy, maximal)
whitespace run of that match is being consumed, during which `acc = []`. -/
def splitSentencesAux : Bool → List Char → List Char → List (List Char)
  | _, acc, [] => [acc.reverse]
  | true, acc, c :: rest =>
    if pyIsSpace c then splitSentencesAux true acc rest
    else splitSentencesAux false (c :: acc) rest
  | false, acc, c :: rest =>
    if pyIsSpace c && headSentEnd acc then
      acc.reverse :: splitSentencesAux true [] rest
    else
      splitSentencesAux false (c :: acc) rest

/-- `re.split(r'(?<=[.!?])\s+', text)` on the characters of `text`. -/
def splitSentences (l : List Char) : List (List Char) :=
  splitSentencesAux false [] l

/-! ## The default chunker loop of `F5TTSBackend._split_text`

`packStrings` is the literal translation of the source loop: it strips each
sentence, skips blank ones, and packs them greedily against the 200-word
budget, emitting `" ".join(current_chunk)` each time a chunk is closed.
`packGroups` is the same loop with the join left undone, so each produced
chunk is still the list of sentences it was packed from; joining recovers
`packStrings` (proved below), and the chunk-level claims are stated on it. -/

/-- `max_words_per_chunk` in `F5TTSBackend._split_text`. -/
def maxWordsPerChunk : Nat := 200

/-- The packing loop, emitting each closed chunk as its list of sentences. -/
def packGroups (cur : List (List Char)) (cnt : Nat) :
    List (List Char) → List (List (List Char))
  | [] => if cur = [] then [] else [cur]
  | s :: rest =>
    let s' := pyStrip s
    if s' = [] then packGroups cur cnt rest
    else
      let wc := wordCount s'
      if cnt + wc > maxWordsPerChunk ∧ cur ≠ [] then
        cur :: packGroups [s'] wc rest
      else
        packGroups (cur ++ [s']) (cnt + wc) rest

/-- The packing loop as in the source, emitting `" ".join(current_chunk)`. -/
def packStrings (cur : List (List Char)) (cnt : Nat) :
    List (List Char) → List (List Char)
  | [] => if cur = [] then [] else [List.intercalate [' '] cur]
  | s :: rest =>
    let s' := pyStrip s
    if s' = [] then packStrings cur cnt rest
    else
      let wc := wordCount s'
      if cnt + wc > maxWordsPerChunk ∧ cur ≠ [] then
        List.intercalate [' '] cur :: packStrings [s'] wc rest
      else
        packStrings (cur ++ [s']) (cnt + wc) rest

/-- The default (no custom pattern) branch of `F5TTSBackend._split_text`. -/
def f5DefaultChunks (text : String) : List String :=
  (packStrings [] 0 (splitSentences text.data)).map String.mk

/-- `F5TTSBackend._split_text(text, split_pattern)`.

`reSplit` stands for the external `re.split(pattern, text)`.  Python's
`if split_pattern:` is a truthiness test, so `None` and `""` both select the
default sentence chunker.  The custom branch is the comprehension
`[c.strip() for c in re.split(split_pattern, text) if c.strip()]`. -/
def splitTextF5 (reSplit : String → String → List String)
    (text : String) (split_pattern : Option String) : List String :=
  match split_pattern with
  | some p =>
    if p = "" then f5DefaultChunks text
    else (reSplit p text).filterMap fun c =>
      let t := pyStripStr c
      if t = "" then none else some t
  | none => f5DefaultChunks text

/-- Total word count of a chunk, as the budget in the source counts it:
the sum of `len(sentence.split())` over the chunk's sentences. -/
def chunkWords (g : List (List Char)) : Nat := (g.map wordCount).sum

/-! ## Chunker lemmas (claims C1 and C5) -/

lemma chunkWords_append (a b : List (List Char)) :
    chunkWords (a ++ b) = chunkWords a + chunkWords b := by
  simp [chunkWords, List.map_append, List.sum_append]

/-- Joining each chunk's sentence list with `" "` recovers the source loop. -/
lemma packStrings_eq_map_packGroups :
    ∀ (ss : List (List Char)) (cur : List (List Char)) (cnt : Nat),
      packStrings cur cnt ss = (packGroups cur cnt ss).map (List.intercalate [' ']) := by
  intro ss
  induction ss with
  | nil =>
    intro cur cnt
    by_cases h : cur = [] <;> simp [packStrings, packGroups, h]
  | cons s rest ih =>
    intro cur cnt
    simp only [packStrings, packGroups]
    by_cases h1 : pyStrip s = []
    · rw [if_pos h1, if_pos h1]
      exact ih cur cnt
    · rw [if_neg h1, if_neg h1]
      by_cases h2 : cnt + wordCount (pyStrip s) > maxWordsPerChunk ∧ cur ≠ []
      · rw [if_pos h2, if_pos h2, List.map_cons, ih]
      · rw [if_neg h2, if_neg h2]
        exact ih _ _

/-- The packed chunks, flattened, are exactly the stripped non-blank
sentences, in order, appended to whatever the current chunk already holds. -/
lemma packGroups_flatten :
    ∀ (ss : List (List Char)) (cur : List (List Char)) (cnt : Nat),
      (packGroups cur cnt ss).flatten =
        cur ++ (ss.map pyStrip).filter (fun s => s ≠ []) := by
  intro ss
  induction ss with
  | nil =>
    intro cur cnt
    by_cases h : cur = [] <;> simp [packGroups, h]
  | cons s rest ih =>
    intro cur cnt
    simp only [packGroups]
    by_cases h1 : pyStrip s = []
    · rw [if_pos h1, ih]
      simp [h1]
    · rw [if_neg h1]
      by_cases h2 : cnt + wordCount (pyStrip s) > maxWordsPerChunk ∧ cur ≠ []
      · rw [if_pos h2, List.flatten_cons, ih]
        simp [h1]
      · rw [if_neg h2, ih]
        simp [h1]

/-- A chunk respects the word budget unless it is a single over-long sentence. -/
def chunkOK (g : List (List Char)) : Prop :=
  chunkWords g ≤ maxWordsPerChunk ∨ ∃ s, g = [s] ∧ maxWordsPerChunk < wordCount s

lemma chunkOK_of_inv {g : List (List Char)}
    (h : chunkWords g ≤ maxWordsPerChunk ∨ g.length = 1) : chunkOK g := by
  rcases h with h | h
  · exact Or.inl h
  · match g, h with
    | [s], _ =>
      rcases Nat.lt_or_ge maxWordsPerChunk (wordCount s) with hlt | hle
      · exact Or.inr ⟨s, rfl, hlt⟩
      · exact Or.inl (by simpa [chunkWords] using hle)

/-- Budget invariant of the packing loop. -/
lemma packGroups_budget :
    ∀ (ss : List (List Char)) (cur : List (List Char)) (cnt : Nat),
      cnt = chunkWords cur →
      (chunkWords cur ≤ maxWordsPerChunk ∨ cur.length = 1) →
      ∀ g ∈ packGroups cur cnt ss, chunkOK g := by
  intro ss
  induction ss with
  | nil =>
    intro cur cnt hcnt hinv g hg
    by_cases h : cur = []
    · simp [packGroups, h] at hg
    · simp only [packGroups, if_neg h, List.mem_singleton] at hg
      exact hg ▸ chunkOK_of_inv hinv
  | cons s rest ih =>
    intro cur cnt hcnt hinv g hg
    simp only [packGroups] at hg
    by_cases h1 : pyStrip s = []
    · rw [if_pos h1] at hg
      exact ih cur cnt hcnt hinv g hg
    · rw [if_neg h1] at hg
      by_cases h2 : cnt + wordCount (pyStrip s) > maxWordsPerChunk ∧ cur ≠ []
      · rw [if_pos h2] at hg
        rcases List.mem_cons.mp hg with rfl | hg
        · exact chunkOK_of_inv hinv
        · exact ih [pyStrip s] (wordCount (pyStrip s))
            (by simp [chunkWords]) (Or.inr rfl) g hg
      · rw [if_neg h2] at hg
        have hcnt' : cnt + wordCount (pyStrip s) = chunkWords (cur ++ [pyStrip s]) := by
          rw [chunkWords_append, ← hcnt]
          simp [chunkWords]
        have hinv' : chunkWords (cur ++ [pyStrip s]) ≤ maxWordsPerChunk ∨
            (cur ++ [pyStrip s]).length = 1 := by
          rcases not_and_or.mp h2 with h3 | h3
          · exact Or.inl (hcnt' ▸ Nat.le_of_not_lt h3)
          · have : cur = [] := not_not.mp h3
            subst this
            exact Or.inr rfl
        exact ih _ _ hcnt' hinv' g hg

/-- C1: with no custom split rule, `F5TTSBackend._split_text` splits the text
into sentences at sentence-terminal punctuation followed by whitespace and
greedily packs them into chunks: each produced chunk is the space-join of a
group of sentences, (a) the groups flatten back to the original sequence of
(stripped, non-blank) sentences in order, and (b) every group is within the
200-word budget unless it is a single sentence that alone exceeds it. -/
theorem f5_default_chunker_correct (reSplit : String → String → List String)
    (text : String) :
    splitTextF5 reSplit text none =
      (packGroups [] 0 (splitSentences text.data)).map
        (fun g => String.mk (List.intercalate [' '] g)) ∧
    (packGroups [] 0 (splitSentences text.data)).flatten =
      ((splitSentences text.data).map pyStrip).filter (fun s => s ≠ []) ∧
    ∀ g ∈ packGroups [] 0 (splitSentences text.data),
      chunkWords g ≤ maxWordsPerChunk ∨
        ∃ s, g = [s] ∧ maxWordsPerChunk < wordCount s := by
  refine ⟨?_, ?_, ?_⟩
  · simp only [splitTextF5, f5DefaultChunks, packStrings_eq_map_packGroups,
      List.map_map]
    rfl
  · simpa using packGroups_flatten (splitSentences text.data) [] 0
  · intro g hg
    exact packGroups_budget (splitSentences text.data) [] 0
      (by simp [chunkWords]) (Or.inl (by simp [chunkWords])) g hg

/-- Witness for C1 at the concrete text `"Hello there. Bye now."`. -/
theorem f5_default_chunker_correct_witness :
    chunkWords ["Hello there.".data, "Bye now.".data] ≤ maxWordsPerChunk ∨
      ∃ s, ["Hello there.".data, "Bye now.".data] = [s] ∧
        maxWordsPerChunk < wordCount s :=
  (f5_default_chunker_correct (fun _ _ => []) "Hello there. Bye now.").2.2
    ["Hello there.".data, "Bye now.".data] (by decide)

/-- Modelled from the spec's words ("the non-blank segments produced by that
split, each trimmed of surrounding whitespace, in order"): the trimmed,
non-blank segments of the external split, for comparison with the code's
custom-rule branch. -/
def customRuleSpec (reSplit : String → String → List String)
    (p text : String) : List String :=
  ((reSplit p text).map pyStripStr).filter (fun c => c ≠ "")

lemma filterMap_strip (l : List String) :
    (l.filterMap fun c =>
      let t := pyStripStr c
      if t = "" then none else some t) =
    (l.map pyStripStr).filter (fun c => c ≠ "") := by
  induction l with
  | nil => rfl
  | cons a l ih =>
    by_cases h : pyStripStr a = "" <;>
      simp [List.filterMap_cons, List.filter_cons, h, ih]

/-- C5: a supplied (non-empty, hence truthy) custom split rule is handed
verbatim to the external splitter and the chunker returns exactly the
non-blank trimmed segments of that split, in order; the word-budget packing
logic is bypassed (the right-hand side never consults it). -/
theorem f5_custom_rule_precedence (reSplit : String → String → List String)
    (p text : String) (hp : p ≠ "") :
    splitTextF5 reSplit text (some p) = customRuleSpec reSplit p text := by
  simp only [splitTextF5, customRuleSpec, if_neg hp]
  exact filterMap_strip _

/-- Witness for C5 at a concrete splitter and pattern. -/
theorem f5_custom_rule_precedence_witness :
    splitTextF5 (fun _ _ => [" a ", "", "b  c", "  "]) "txt" (some "|") =
      customRuleSpec (fun _ _ => [" a ", "", "b  c", "  "]) "|" "txt" :=
  f5_custom_rule_precedence (fun _ _ => [" a ", "", "b  c", "  "]) "|" "txt"
    (by decide)

/-! ## The cloning adapter: `F5TTSBackend.__init__` and `__call__`

The third-party model call `self.f5tts.infer(...)` is an uninterpreted
function from its argument record to either an error message (a raised
exception) or a result `(audio, sample_rate)`; the audio payload type is a
type parameter `α` (the adapter forwards it after numpy conversions that are
identities in this model).  Filesystem existence (`Path(...).exists()`) is an
uninterpreted predicate.  A synthesis call is embedded as a function
returning the trace of `infer` invocations it issued, the list of results it
yielded, and the terminal error, if any (a Python generator either finishes
its iteration or ends it by raising). -/

/-- The constructor-time fields of `F5TTSBackend` that `__call__` can read
(`self.*` assignments in `__init__`).  Numeric synthesis parameters are
forwarded, never computed with, so they are modelled as `ℚ`. -/
structure F5State where
  default_ref_audio_path : Option String
  default_ref_text : String
  target_rms : ℚ
  cross_fade_duration : ℚ
  nfe_step : Nat
  cfg_strength : ℚ
  sway_sampling_coef : ℚ
  default_speed : ℚ
  fix_duration : Option ℚ
deriving DecidableEq, Repr

/-- `F5TTSBackend.__init__`: stores the reference audio/transcript defaults
(`self.default_ref_text = reference_text or ""`) and the synthesis
parameters; the constructor argument `speed` is stored as
`self.default_speed`. -/
def mkF5State (reference_audio : Option String) (reference_text : Option String)
    (target_rms cross_fade_duration : ℚ) (nfe_step : Nat)
    (cfg_strength sway_sampling_coef : ℚ) (speed : ℚ)
    (fix_duration : Option ℚ) : F5State :=
  { default_ref_audio_path := reference_audio
    default_ref_text := (reference_text.getD "")
    target_rms := target_rms
    cross_fade_duration := cross_fade_duration
    nfe_step := nfe_step
    cfg_strength := cfg_strength
    sway_sampling_coef := sway_sampling_coef
    default_speed := speed
    fix_duration := fix_duration }

/-- The argument record of one `self.f5tts.infer(...)` invocation
(the `show_info`/`progress` logging callbacks are omitted). -/
structure InferArgs where
  ref_file : String
  ref_text : String
  gen_text : String
  target_rms : ℚ
  cross_fade_duration : ℚ
  nfe_step : Nat
  cfg_strength : ℚ
  sway_sampling_coef : ℚ
  speed : ℚ
  fix_duration : Option ℚ
  remove_silence : Bool
  seed : Option Nat
deriving DecidableEq, Repr

/-- The `infer` argument record built inside the chunk loop of `__call__`:
engine-level parameters come from the instance, `speed` is the per-call
argument, `remove_silence=False`, `seed=None`. -/
def mkInferArgs (st : F5State) (ref_file ref_text gen_text : String)
    (speed : ℚ) : InferArgs :=
  { ref_file := ref_file
    ref_text := ref_text
    gen_text := gen_text
    target_rms := st.target_rms
    cross_fade_duration := st.cross_fade_duration
    nfe_step := st.nfe_step
    cfg_strength := st.cfg_strength
    sway_sampling_coef := st.sway_sampling_coef
    speed := speed
    fix_duration := st.fix_duration
    remove_silence := false
    seed := none }

/-- The normalized per-chunk result (`TTSResult` in `base.py`); `audio` is
the abstract payload, `graphemes` is `list(chunk)` (each character as a
one-character string) and `tokens` is always `[]` for this adapter. -/
structure TTSResultM (α : Type) where
  audio : α
  sample_rate : Nat
  graphemes : List String
  tokens : List Unit
deriving DecidableEq, Repr

/-- The errors `__call__` can raise. -/
inductive SynthError where
  /-- The `ValueError("F5-TTS requires reference audio. ...")` of `__call__`. -/
  | invalidVoice (msg : String)
  /-- The `RuntimeError(f"F5-TTS synthesis failed on chunk {i}/{total}: ...")`:
  carries the 1-based failing chunk index, the total chunk count, the
  `chunk[:100]` excerpt and the message of the underlying exception. -/
  | synthesisFailed (chunkIndex totalChunks : Nat) (excerpt : String)
      (cause : String)
deriving DecidableEq, Repr

/-- First line of the `ValueError` message raised when no reference audio is
available (the full message continues with remediation instructions). -/
def f5NoRefMsg : String :=
  "F5-TTS requires reference audio. Please provide:\n" ++
  "  1. 'voice' parameter as path to reference audio file, OR\n" ++
  "  2. 'reference_audio' in backend initialization"

/-- The reference-voice resolution at the top of `__call__`:
`if voice and Path(voice).exists(): ...`
`elif self.default_ref_audio_path and Path(self.default_ref_audio_path).exists(): ...`
`else: raise ValueError(...)`.  Returns the `(ref_audio_path, ref_text)`
pair the call will use. -/
def resolveRef (fileExists : String → Bool) (st : F5State) (voice : String) :
    Except SynthError (String × String) :=
  if voice ≠ "" ∧ fileExists voice = true then
    .ok (voice, "")
  else
    match st.default_ref_audio_path with
    | some d =>
      if d ≠ "" ∧ fileExists d = true then .ok (d, st.default_ref_text)
      else .error (.invalidVoice f5NoRefMsg)
    | none => .error (.invalidVoice f5NoRefMsg)

/-- The result dataclass built for a successful chunk: audio and sample rate
from `infer`, `graphemes = list(chunk)`, `tokens = []`. -/
def mkChunkResult {α : Type} (r : α × Nat) (chunk : String) : TTSResultM α :=
  { audio := r.1
    sample_rate := r.2
    graphemes := chunk.data.map (fun c => String.mk [c])
    tokens := [] }

/-- The `for i, chunk in enumerate(chunks, 1)` loop of `__call__`: blank
chunks are skipped (`continue`), a successful `infer` yields a result, a
failing `infer` raises `SynthesisFailed` and ends the iteration.  Returns
(trace of `infer` calls, yielded results, terminal error). -/
def f5Loop {α : Type} (infer : InferArgs → Except String (α × Nat))
    (st : F5State) (refp reft : String) (speed : ℚ) (total : Nat) :
    Nat → List String → List InferArgs × List (TTSResultM α) × Option SynthError
  | _, [] => ([], [], none)
  | i, chunk :: rest =>
    if pyStripStr chunk = "" then f5Loop infer st refp reft speed total (i + 1) rest
    else
      let a := mkInferArgs st refp reft chunk speed
      match infer a with
      | .error e =>
        ([a], [], some (.synthesisFailed i total (chunk.take 100) e))
      | .ok r =>
        let rec' := f5Loop infer st refp reft speed total (i + 1) rest
        (a :: rec'.1, mkChunkResult r chunk :: rec'.2.1, rec'.2.2)

/-- `F5TTSBackend.__call__(text, voice, speed, split_pattern)`: resolve the
reference voice, split the text, then run the chunk loop.  Returns the trace
of `infer` calls issued, the results yielded, and the terminal error. -/
def f5Run {α : Type} (infer : InferArgs → Except String (α × Nat))
    (fileExists : String → Bool) (reSplit : String → String → List String)
    (st : F5State) (text voice : String) (speed : ℚ)
    (split_pattern : Option String) :
    List InferArgs × List (TTSResultM α) × Option SynthError :=
  match resolveRef fileExists st voice with
  | .error e => ([], [], some e)
  | .ok (refp, reft) =>
    let chunks := splitTextF5 reSplit text split_pattern
    f5Loop infer st refp reft speed chunks.length 1 chunks

/-! ## Voice resolution (claim C2) -/

/-- C2: the reference voice of a `__call__` is resolved in this order:
(1) a non-empty `voice` naming an existing file is used with an empty
transcript, whatever default the instance holds; (2) otherwise a non-empty
default reference audio that exists on disk is used with the configured
default transcript; (3) otherwise the call ends with `InvalidVoice`
(`ValueError`) having issued no inference call and yielded no result. -/
theorem f5_voice_resolution {α : Type}
    (infer : InferArgs → Except String (α × Nat))
    (fileExists : String → Bool) (reSplit : String → String → List String)
    (st : F5State) (text voice : String) (speed : ℚ) (sp : Option String) :
    (voice ≠ "" → fileExists voice = true →
      resolveRef fileExists st voice = .ok (voice, "")) ∧
    (¬(voice ≠ "" ∧ fileExists voice = true) →
      ∀ d, st.default_ref_audio_path = some d → d ≠ "" → fileExists d = true →
        resolveRef fileExists st voice = .ok (d, st.default_ref_text)) ∧
    (¬(voice ≠ "" ∧ fileExists voice = true) →
      (∀ d, st.default_ref_audio_path = some d → ¬(d ≠ "" ∧ fileExists d = true)) →
      f5Run infer fileExists reSplit st text voice speed sp =
        ([], [], some (.invalidVoice f5NoRefMsg))) := by
  refine ⟨?_, ?_, ?_⟩
  · intro h1 h2
    rw [resolveRef, if_pos ⟨h1, h2⟩]
  · intro h d hd hne hex
    rw [resolveRef, if_neg h, hd]
    exact if_pos ⟨hne, hex⟩
  · intro h hdef
    have hres : resolveRef fileExists st voice = .error (.invalidVoice f5NoRefMsg) := by
      rw [resolveRef, if_neg h]
      cases hd : st.default_ref_audio_path with
      | none => rfl
      | some d => exact if_neg (hdef d hd)
    simp only [f5Run, hres]

/-- Witness for C2: all three resolution cases at concrete instances. -/
theorem f5_voice_resolution_witness :
    resolveRef (fun _ => true) ⟨some "d.wav", "hi", 0, 0, 0, 0, 0, 0, none⟩
      "v.wav" = .ok ("v.wav", "") ∧
    resolveRef (fun _ => true) ⟨some "d.wav", "hi", 0, 0, 0, 0, 0, 0, none⟩
      "" = .ok ("d.wav", "hi") ∧
    f5Run (fun _ => (.error "nv" : Except String (Unit × Nat))) (fun _ => false)
      (fun _ _ => []) ⟨none, "", 0, 0, 0, 0, 0, 0, none⟩ "Some text." "" 1 none =
      ([], [], some (.invalidVoice f5NoRefMsg)) :=
  ⟨(f5_voice_resolution (fun _ => (.error "nv" : Except String (Unit × Nat)))
      (fun _ => true) (fun _ _ => []) ⟨some "d.wav", "hi", 0, 0, 0, 0, 0, 0, none⟩
      "t" "v.wav" 1 none).1 (by decide) rfl,
   (f5_voice_resolution (fun _ => (.error "nv" : Except String (Unit × Nat)))
      (fun _ => true) (fun _ _ => []) ⟨some "d.wav", "hi", 0, 0, 0, 0, 0, 0, none⟩
      "t" "" 1 none).2.1 (by simp) "d.wav" rfl (by decide) rfl,
   (f5_voice_resolution (fun _ => (.error "nv" : Except String (Unit × Nat)))
      (fun _ => false) (fun _ _ => []) ⟨none, "", 0, 0, 0, 0, 0, 0, none⟩
      "Some text." "" 1 none).2.2 (by simp) (fun d hd => by cases hd)⟩

/-! ## Blank input (claim C9) -/

lemma isSentEnd_eq_false_of_pyIsSpace {c : Char} (h : pyIsSpace c = true) :
    isSentEnd c = false := by
  simp only [pyIsSpace, Bool.or_eq_true, beq_iff_eq] at h
  rcases h with ((((h | h) | h) | h) | h) | h <;> subst h <;> rfl

/-- On all-whitespace input the lookbehind never fires: the scanner returns
the input as a single piece. -/
lemma splitSentencesAux_all_space :
    ∀ (l acc : List Char), (∀ c ∈ l, pyIsSpace c = true) →
      (∀ c ∈ acc, pyIsSpace c = true) →
      splitSentencesAux false acc l = [acc.reverse ++ l] := by
  intro l
  induction l with
  | nil => intro acc _ _; simp [splitSentencesAux]
  | cons c rest ih =>
    intro acc hl hacc
    have hc : pyIsSpace c = true := hl c (List.mem_cons_self c rest)
    have hhead : headSentEnd acc = false := by
      cases acc with
      | nil => rfl
      | cons a acc' =>
        simp only [headSentEnd]
        exact isSentEnd_eq_false_of_pyIsSpace (hacc a (List.mem_cons_self a acc'))
    simp only [splitSentencesAux, hhead, Bool.and_false, Bool.false_eq_true,
      if_false]
    rw [ih (c :: acc) (fun x hx => hl x (List.mem_cons_of_mem c hx))
      (fun x hx => by
        rcases List.mem_cons.mp hx with rfl | hx
        · exact hc
        · exact hacc x hx)]
    simp

lemma pyStrip_all_space {l : List Char} (h : ∀ c ∈ l, pyIsSpace c = true) :
    pyStrip l = [] := by
  have hdrop : l.dropWhile pyIsSpace = [] := List.dropWhile_eq_nil_iff.mpr h
  simp [pyStrip, hdrop]

/-- On all-whitespace text the default chunker produces no chunks. -/
lemma f5DefaultChunks_all_space {text : String}
    (h : ∀ c ∈ text.data, pyIsSpace c = true) : f5DefaultChunks text = [] := by
  rw [f5DefaultChunks, splitSentences, splitSentencesAux_all_space text.data []
    h (by intro c hc; cases hc)]
  simp only [List.reverse_nil, List.nil_append]
  rw [packStrings, if_pos (pyStrip_all_space h)]
  rfl

/-- C9: if the reference voice resolves but the input text is empty or all
whitespace (and no custom split rule is given), the call yields no result,
issues no inference call, and raises no error: the default chunker produces
no chunks for blank input, so the loop finishes immediately. -/
theorem f5_blank_text_yields_nothing {α : Type}
    (infer : InferArgs → Except String (α × Nat))
    (fileExists : String → Bool) (reSplit : String → String → List String)
    (st : F5State) (text voice : String) (speed : ℚ) (refp reft : String)
    (hres : resolveRef fileExists st voice = .ok (refp, reft))
    (hblank : ∀ c ∈ text.data, pyIsSpace c = true) :
    f5Run infer fileExists reSplit st text voice speed none = ([], [], none) := by
  simp only [f5Run, hres]
  have hchunks : splitTextF5 reSplit text none = [] := f5DefaultChunks_all_space hblank
  rw [hchunks]
  rfl

/-- Witness for C9 at the blank text `"  "`. -/
theorem f5_blank_text_yields_nothing_witness :
    f5Run (fun _ => (.error "nv" : Except String (Unit × Nat))) (fun _ => true)
      (fun _ _ => []) ⟨none, "", 0, 0, 0, 0, 0, 0, none⟩ "  " "r.wav" 1 none =
      ([], [], none) :=
  f5_blank_text_yields_nothing (fun _ => (.error "nv" : Except String (Unit × Nat)))
    (fun _ => true) (fun _ _ => []) ⟨none, "", 0, 0, 0, 0, 0, 0, none⟩
    "  " "r.wav" 1 "r.wav" "" rfl (by decide)

/-! ## Mid-stream failure (claim C7) -/

/-- Running the chunk loop over `pre ++ cbad :: post`, where every non-blank
chunk of `pre` synthesizes (with result `g c`) and the non-blank `cbad`
fails: the prior results are kept, the failing call is the last one issued,
the error carries the 1-based position of `cbad` and its 100-character
excerpt, and nothing of `post` is touched. -/
lemma f5Loop_failure {α : Type} (infer : InferArgs → Except String (α × Nat))
    (g : String → α × Nat) (st : F5State) (refp reft : String) (speed : ℚ)
    (total : Nat) (cbad : String) (post : List String) (e : String)
    (hbad : pyStripStr cbad ≠ "")
    (herr : infer (mkInferArgs st refp reft cbad speed) = .error e) :
    ∀ (pre : List String) (i : Nat),
      (∀ c ∈ pre, pyStripStr c ≠ "" →
        infer (mkInferArgs st refp reft c speed) = .ok (g c)) →
      f5Loop infer st refp reft speed total i (pre ++ cbad :: post) =
        ((pre.filter (fun c => pyStripStr c ≠ "")).map
            (fun c => mkInferArgs st refp reft c speed)
          ++ [mkInferArgs st refp reft cbad speed],
         (pre.filter (fun c => pyStripStr c ≠ "")).map
            (fun c => mkChunkResult (g c) c),
         some (.synthesisFailed (i + pre.length) total (cbad.take 100) e)) := by
  intro pre
  induction pre with
  | nil =>
    intro i _
    simp only [List.nil_append, f5Loop, if_neg hbad, herr, List.filter_nil,
      List.map_nil, List.nil_append, List.length_nil, Nat.add_zero]
  | cons c pre' ih =>
    intro i hpre
    simp only [List.cons_append, f5Loop, List.append_eq]
    by_cases hc : pyStripStr c = ""
    · rw [if_pos hc, ih (i + 1) (fun x hx h => hpre x (List.mem_cons_of_mem c hx) h)]
      have : i + 1 + pre'.length = i + (c :: pre').length := by
        simp [List.length_cons]; omega
      simp [List.filter_cons, hc, this]
    · rw [if_neg hc, hpre c (List.mem_cons_self c pre') hc,
        ih (i + 1) (fun x hx h => hpre x (List.mem_cons_of_mem c hx) h)]
      have : i + 1 + pre'.length = i + (c :: pre').length := by
        simp [List.length_cons]; omega
      simp [List.filter_cons, hc, this]

/-- C7: if a non-blank chunk fails during synthesis, the call ends with
`SynthesisFailed` carrying that chunk's 1-based index and its first 100
characters, no later chunk is synthesized (the failing inference call is
the last one issued), and the results yielded for the earlier chunks stand. -/
theorem f5_chunk_failure_aborts {α : Type}
    (infer : InferArgs → Except String (α × Nat)) (g : String → α × Nat)
    (fileExists : String → Bool) (reSplit : String → String → List String)
    (st : F5State) (text voice : String) (speed : ℚ) (sp : Option String)
    (refp reft : String) (pre : List String) (cbad : String)
    (post : List String) (e : String)
    (hres : resolveRef fileExists st voice = .ok (refp, reft))
    (hsplit : splitTextF5 reSplit text sp = pre ++ cbad :: post)
    (hpre : ∀ c ∈ pre, pyStripStr c ≠ "" →
      infer (mkInferArgs st refp reft c speed) = .ok (g c))
    (hbad : pyStripStr cbad ≠ "")
    (herr : infer (mkInferArgs st refp reft cbad speed) = .error e) :
    f5Run infer fileExists reSplit st text voice speed sp =
      ((pre.filter (fun c => pyStripStr c ≠ "")).map
          (fun c => mkInferArgs st refp reft c speed)
        ++ [mkInferArgs st refp reft cbad speed],
       (pre.filter (fun c => pyStripStr c ≠ "")).map
          (fun c => mkChunkResult (g c) c),
       some (.synthesisFailed (1 + pre.length) (pre ++ cbad :: post).length
          (cbad.take 100) e)) := by
  simp only [f5Run, hres, hsplit]
  exact f5Loop_failure infer g st refp reft speed (pre ++ cbad :: post).length
    cbad post e hbad herr pre 1 hpre

set_option maxRecDepth 8192 in
/-- Witness for C7: two chunks, the second fails. -/
theorem f5_chunk_failure_aborts_witness :
    f5Run
      (fun a => if a.gen_text = "A" then (.ok ((0 : Nat), 24000)) else .error "boom")
      (fun _ => true) (fun _ _ => ["A", "B"])
      ⟨none, "", 0, 0, 0, 0, 0, 0, none⟩ "txt" "v.wav" 1 (some "|") =
      ([mkInferArgs ⟨none, "", 0, 0, 0, 0, 0, 0, none⟩ "v.wav" "" "A" 1,
        mkInferArgs ⟨none, "", 0, 0, 0, 0, 0, 0, none⟩ "v.wav" "" "B" 1],
       [mkChunkResult ((0 : Nat), 24000) "A"],
       some (.synthesisFailed 2 2 "B" "boom")) := by
  exact f5_chunk_failure_aborts
    (fun a => if a.gen_text = "A" then (.ok ((0 : Nat), 24000)) else .error "boom")
    (fun _ => ((0 : Nat), 24000)) (fun _ => true) (fun _ _ => ["A", "B"])
    ⟨none, "", 0, 0, 0, 0, 0, 0, none⟩ "txt" "v.wav" 1 (some "|")
    "v.wav" "" ["A"] "B" [] "boom" rfl rfl
    (fun c hc hne => by rcases List.mem_singleton.mp hc with rfl; rfl)
    (by decide) rfl

/-! ## Construction-time speed is dead after `__init__` (claim C10) -/

/-- The chunk loop reads the instance only through the `infer` argument
records it builds; two instances that build identical records run alike. -/
lemma f5Loop_state_irrel {α : Type} (infer : InferArgs → Except String (α × Nat))
    (st₁ st₂ : F5State) (refp reft : String) (speed : ℚ) (total : Nat)
    (h : ∀ c, mkInferArgs st₁ refp reft c speed = mkInferArgs st₂ refp reft c speed) :
    ∀ (l : List String) (i : Nat),
      f5Loop infer st₁ refp reft speed total i l =
        f5Loop infer st₂ refp reft speed total i l := by
  intro l
  induction l with
  | nil => intro i; rfl
  | cons c rest ih =>
    intro i
    simp only [f5Loop, h c, ih rest.length]
    by_cases hc : pyStripStr c = ""
    · rw [if_pos hc, if_pos hc, ih (i + 1)]
    · rw [if_neg hc, if_neg hc]
      cases infer (mkInferArgs st₂ refp reft c speed) with
      | error e => rfl
      | ok r => simp only [ih (i + 1)]

/-- C10: the synthesis behaviour of a call does not depend on the `speed`
value given to the constructor: two instances built with the same arguments
except for the constructor's `speed` issue identical inference-call traces,
yield identical results and end identically, for every `Synthesize`
invocation — only the per-call `speed` argument reaches the model, and the
stored `default_speed` is never read after `__init__`. -/
theorem f5_construction_speed_noninterference {α : Type}
    (infer : InferArgs → Except String (α × Nat))
    (fileExists : String → Bool) (reSplit : String → String → List String)
    (reference_audio : Option String) (reference_text : Option String)
    (target_rms cross_fade_duration : ℚ) (nfe_step : Nat)
    (cfg_strength sway_sampling_coef : ℚ) (fix_duration : Option ℚ)
    (s₁ s₂ : ℚ) (text voice : String) (speed : ℚ) (sp : Option String) :
    f5Run infer fileExists reSplit
      (mkF5State reference_audio reference_text target_rms cross_fade_duration
        nfe_step cfg_strength sway_sampling_coef s₁ fix_duration)
      text voice speed sp =
    f5Run infer fileExists reSplit
      (mkF5State reference_audio reference_text target_rms cross_fade_duration
        nfe_step cfg_strength sway_sampling_coef s₂ fix_duration)
      text voice speed sp := by
  simp only [f5Run]
  rw [show resolveRef fileExists
      (mkF5State reference_audio reference_text target_rms cross_fade_duration
        nfe_step cfg_strength sway_sampling_coef s₁ fix_duration) voice =
    resolveRef fileExists
      (mkF5State reference_audio reference_text target_rms cross_fade_duration
        nfe_step cfg_strength sway_sampling_coef s₂ fix_duration) voice from rfl]
  cases resolveRef fileExists
      (mkF5State reference_audio reference_text target_rms cross_fade_duration
        nfe_step cfg_strength sway_sampling_coef s₂ fix_duration) voice with
  | error e => rfl
  | ok p =>
    obtain ⟨refp, reft⟩ := p
    exact f5Loop_state_irrel infer
      (mkF5State reference_audio reference_text target_rms cross_fade_duration
        nfe_step cfg_strength sway_sampling_coef s₁ fix_duration)
      (mkF5State reference_audio reference_text target_rms cross_fade_duration
        nfe_step cfg_strength sway_sampling_coef s₂ fix_duration)
      refp reft speed _ (fun c => rfl) _ 1

/-! ## Registry and factory: `tts_backends/__init__.py` (claims C3, C4, C8)

Python exceptions are modelled by `PyExc` (a kind, a message, an optional
`__cause__`).  Adapter construction (`engine_class(lang_code=..., ...)`) and
the static dependency check (`import kokoro` / `import f5_tts`) are
uninterpreted functions returning `.ok` or a raised `PyExc`. -/

/-- Exception classes relevant to the factory: `except ImportError` and
`except Exception` are the two handlers of `create_tts_engine`. -/
inductive ExcKind where
  | valueError
  | importError
  | runtimeError
  | otherExc (typeName : String)
deriving DecidableEq, Repr

/-- A Python exception: class, message, `__cause__` (`raise ... from e`). -/
inductive PyExc where
  | mk (kind : ExcKind) (msg : String) (cause : Option PyExc)

/-- The exception's class. -/
def PyExc.kind : PyExc → ExcKind
  | .mk k _ _ => k

/-- The exception's message. -/
def PyExc.msg : PyExc → String
  | .mk _ m _ => m

/-- `ENGINE_REGISTRY` keys, in insertion order. -/
def engineRegistryKeys : List String := ["kokoro", "f5_tts"]

/-- The static `install_instructions` table of `create_tts_engine`. -/
def installInstructions : String → Option String
  | "kokoro" => some "pip install kokoro"
  | "f5_tts" => some ("pip install f5-tts\n" ++
      "  Or from source: git clone https://github.com/SWivid/F5-TTS.git && " ++
      "cd F5-TTS && pip install -e .")
  | _ => none

/-- `install_instructions.get(engine_name, f"pip install abogen[{engine_name}]")`. -/
def installInstr (name : String) : String :=
  (installInstructions name).getD ("pip install abogen[" ++ name ++ "]")

/-- Message of the `ValueError` raised for an unregistered engine name. -/
def unknownEngineMsg (name : String) : String :=
  "Unknown TTS engine '" ++ name ++ "'.\n" ++
  "Available engines: " ++ String.intercalate ", " engineRegistryKeys ++ "\n" ++
  "\n" ++
  "To add a new engine, register it in ENGINE_REGISTRY."

/-- Message of the `ImportError` re-raised when construction hits one. -/
def depMissingMsg (name causeMsg : String) : String :=
  "Failed to load '" ++ name ++ "' TTS engine.\n" ++
  "\n" ++
  "Missing dependencies: " ++ causeMsg ++ "\n" ++
  "\n" ++
  "To fix, install the required packages:\n" ++
  "  " ++ installInstr name ++ "\n"

/-- Message of the `RuntimeError` re-raised on any other construction error. -/
def initFailedMsg (name causeMsg : String) : String :=
  "Failed to initialize '" ++ name ++ "' TTS engine: " ++ causeMsg

/-- `create_tts_engine(engine_name, ...)`: registry check, then construction
with `except ImportError` / `except Exception` translation; `construct`
stands for `engine_class(lang_code=lang_code, device=device, **kwargs)`. -/
def createTTSEngine {A : Type} (construct : String → Except PyExc A)
    (name : String) : Except PyExc A :=
  if name ∈ engineRegistryKeys then
    match construct name with
    | .ok a => .ok a
    | .error e =>
      if e.kind = .importError then
        .error (.mk .importError (depMissingMsg name e.msg) (some e))
      else
        .error (.mk .runtimeError (initFailedMsg name e.msg) (some e))
  else
    .error (.mk .valueError (unknownEngineMsg name) none)

lemma infix_append_of_eq (l pre post m : List Char) (h : m = pre ++ l ++ post) :
    l <:+: m := ⟨pre, post, h.symm⟩

lemma string_data_append (a b : String) : (a ++ b).data = a.data ++ b.data := rfl

/-- C3: for a registered engine name, `create_tts_engine` either returns the
constructed adapter, or re-raises a construction-time `ImportError` as an
`ImportError` whose message embeds the per-engine install remediation string
(from the static table, with the generic fallback) with the original
exception as cause, or re-raises any other construction error as a
`RuntimeError` with the original exception as cause.  No other outcome
exists. -/
theorem create_engine_classifies {A : Type} (construct : String → Except PyExc A)
    (name : String) (hmem : name ∈ engineRegistryKeys) :
    (∃ a, construct name = .ok a ∧ createTTSEngine construct name = .ok a) ∨
    (∃ e, construct name = .error e ∧
      ((e.kind = .importError ∧
          createTTSEngine construct name =
            .error (.mk .importError (depMissingMsg name e.msg) (some e)) ∧
          (installInstr name).data <:+: (depMissingMsg name e.msg).data) ∨
       (e.kind ≠ .importError ∧
          createTTSEngine construct name =
            .error (.mk .runtimeError (initFailedMsg name e.msg) (some e))))) := by
  cases hc : construct name with
  | ok a =>
    left
    exact ⟨a, rfl, by rw [createTTSEngine, if_pos hmem, hc]⟩
  | error e =>
    right
    refine ⟨e, rfl, ?_⟩
    by_cases hk : e.kind = .importError
    · left
      refine ⟨hk, ?_, ?_⟩
      · rw [createTTSEngine, if_pos hmem, hc]
        exact if_pos hk
      · refine infix_append_of_eq (installInstr name).data
          ("Failed to load '" ++ name ++ "' TTS engine.\n" ++ "\n" ++
            "Missing dependencies: " ++ e.msg ++ "\n" ++ "\n" ++
            "To fix, install the required packages:\n" ++ "  ").data
          "\n".data (depMissingMsg name e.msg).data ?_
        simp only [depMissingMsg, string_data_append, List.append_assoc]
    · right
      exact ⟨hk, by rw [createTTSEngine, if_pos hmem, hc]; exact if_neg hk⟩

/-- Witness for C3 at `name = "kokoro"` with a failing dependency import. -/
theorem create_engine_classifies_witness :
    (∃ a, (fun _ => (.error (.mk .importError "No module named 'kokoro'" none) :
        Except PyExc Unit)) "kokoro" = .ok a ∧
      createTTSEngine
        (fun _ => (.error (.mk .importError "No module named 'kokoro'" none) :
          Except PyExc Unit)) "kokoro" = .ok a) ∨
    (∃ e, (fun _ => (.error (.mk .importError "No module named 'kokoro'" none) :
        Except PyExc Unit)) "kokoro" = .error e ∧
      ((e.kind = .importError ∧
          createTTSEngine
            (fun _ => (.error (.mk .importError "No module named 'kokoro'" none) :
              Except PyExc Unit)) "kokoro" =
            .error (.mk .importError (depMissingMsg "kokoro" e.msg) (some e)) ∧
          (installInstr "kokoro").data <:+: (depMissingMsg "kokoro" e.msg).data) ∨
       (e.kind ≠ .importError ∧
          createTTSEngine
            (fun _ => (.error (.mk .importError "No module named 'kokoro'" none) :
              Except PyExc Unit)) "kokoro" =
            .error (.mk .runtimeError (initFailedMsg "kokoro" e.msg) (some e))))) :=
  create_engine_classifies
    (fun _ => (.error (.mk .importError "No module named 'kokoro'" none) :
      Except PyExc Unit)) "kokoro" (by decide)

/-- C4: for a name outside the registry, `create_tts_engine` raises a
`ValueError` (no construction is attempted) whose message lists every
registered engine name — in particular both `"kokoro"` and `"f5_tts"`. -/
theorem create_engine_unknown_name {A : Type} (construct : String → Except PyExc A)
    (name : String) (hmem : name ∉ engineRegistryKeys) :
    createTTSEngine construct name =
      .error (.mk .valueError (unknownEngineMsg name) none) ∧
    (∀ k ∈ engineRegistryKeys, k.data <:+: (unknownEngineMsg name).data) ∧
    "kokoro".data <:+: (unknownEngineMsg name).data ∧
    "f5_tts".data <:+: (unknownEngineMsg name).data := by
  have hspl : ∀ k : String, k.data <:+: (String.intercalate ", " engineRegistryKeys).data →
      k.data <:+: (unknownEngineMsg name).data := by
    intro k hk
    obtain ⟨pre, post, hk⟩ := hk
    refine infix_append_of_eq k.data
      (("Unknown TTS engine '" ++ name ++ "'.\n" ++
        "Available engines: ").data ++ pre)
      (post ++ ("\n" ++ "\n" ++
        "To add a new engine, register it in ENGINE_REGISTRY.").data)
      (unknownEngineMsg name).data ?_
    simp only [unknownEngineMsg, string_data_append, List.append_assoc, ← hk]
  refine ⟨by rw [createTTSEngine, if_neg hmem], ?_, ?_, ?_⟩
  · intro k hk
    fin_cases hk
    · exact hspl "kokoro" (by decide)
    · exact hspl "f5_tts" (by decide)
  · exact hspl "kokoro" (by decide)
  · exact hspl "f5_tts" (by decide)

/-- Witness for C4 at the unregistered name `"unknown_engine"`. -/
theorem create_engine_unknown_name_witness :
    createTTSEngine (fun _ => (.ok () : Except PyExc Unit)) "unknown_engine" =
      .error (.mk .valueError (unknownEngineMsg "unknown_engine") none) ∧
    (∀ k ∈ engineRegistryKeys,
      k.data <:+: (unknownEngineMsg "unknown_engine").data) ∧
    "kokoro".data <:+: (unknownEngineMsg "unknown_engine").data ∧
    "f5_tts".data <:+: (unknownEngineMsg "unknown_engine").data :=
  create_engine_unknown_name (fun _ => (.ok () : Except PyExc Unit))
    "unknown_engine" (by decide)

/-! ## `get_available_engines` (claim C8)

The registry iteration carries, per engine, whether its class exposes
`_check_dependencies` (`hasattr`); both registered backends define it.  The
per-engine `try` block catches `ImportError` only, so a check failing with
any other exception class propagates out of the whole function. -/

/-- `ENGINE_REGISTRY` items with the `hasattr(engine_class,
'_check_dependencies')` outcome: `KokoroBackend` and `F5TTSBackend` both
define the static method. -/
def engineRegistryEntries : List (String × Bool) :=
  [("kokoro", true), ("f5_tts", true)]

/-- Did the call complete without raising? -/
def exceptIsOk {ε α : Type} : Except ε α → Bool
  | .ok _ => true
  | .error _ => false

/-- The loop of `get_available_engines`: for each entry, run the dependency
check inside `try ... except ImportError`; a caught `ImportError` skips the
name, success appends it, and any other exception aborts the iteration and
propagates. -/
def getAvailableEnginesAux (check : String → Except PyExc Unit) :
    List (String × Bool) → Except PyExc (List String)
  | [] => .ok []
  | (name, hasCheck) :: rest =>
    let step : Except PyExc Bool :=
      if hasCheck then
        match check name with
        | .ok _ => .ok true
        | .error e =>
          if e.kind = .importError then .ok false else .error e
      else .ok true
    match step with
    | .error e => .error e
    | .ok keep =>
      match getAvailableEnginesAux check rest with
      | .error e => .error e
      | .ok l => .ok (if keep then name :: l else l)

/-- `get_available_engines()`; `check name` stands for the engine class's
`_check_dependencies()` (a bare `import`). -/
def getAvailableEngines (check : String → Except PyExc Unit) :
    Except PyExc (List String) :=
  getAvailableEnginesAux check engineRegistryEntries

/-- A dependency check that fails with a `RuntimeError` (e.g. the imported
package's own initialization code raising), not an `ImportError`. -/
def runtimeErrCheck : String → Except PyExc Unit :=
  fun _ => .error (.mk .runtimeError "torch initialization failed" none)

/-- Counterexample to C8 as stated: for the outcome in which a dependency
check raises a `RuntimeError`, `get_available_engines` does not return a
list at all — the exception escapes, because only `ImportError` is caught. -/
theorem get_available_engines_can_raise_cex :
    getAvailableEngines runtimeErrCheck =
      .error (.mk .runtimeError "torch initialization failed" none) ∧
    exceptIsOk (getAvailableEngines runtimeErrCheck) = false :=
  ⟨rfl, rfl⟩

/-- C8 (amended): provided every per-engine dependency check either succeeds
or fails with an `ImportError`, `get_available_engines` does not raise and
returns exactly the registered names whose check succeeds, in registry
order, silently omitting each engine whose check fails; a check failing with
any other exception class instead propagates out (see the counterexample). -/
theorem get_available_engines_ok (check : String → Except PyExc Unit)
    (h : ∀ n, check n = .ok () ∨
      ∃ m c, check n = .error (.mk .importError m c)) :
    getAvailableEngines check =
      .ok (engineRegistryKeys.filter (fun n => exceptIsOk (check n))) := by
  have step : ∀ n, (check n = .ok () ∧ exceptIsOk (check n) = true) ∨
      ∃ m c, check n = .error (.mk .importError m c) ∧ exceptIsOk (check n) = false := by
    intro n
    rcases h n with hn | ⟨m, c, hn⟩
    · exact Or.inl ⟨hn, by rw [hn]; rfl⟩
    · exact Or.inr ⟨m, c, hn, by rw [hn]; rfl⟩
  rcases step "kokoro" with ⟨h1, e1⟩ | ⟨m1, c1, h1, e1⟩ <;>
    rcases step "f5_tts" with ⟨h2, e2⟩ | ⟨m2, c2, h2, e2⟩ <;>
      simp [getAvailableEngines, getAvailableEnginesAux, engineRegistryEntries,
        engineRegistryKeys, h1, h2, e1, e2, PyExc.kind, exceptIsOk, List.filter]

/-- A dependency check environment in which the first engine's import
succeeds and the second raises `ImportError`. -/
def mixedCheck : String → Except PyExc Unit :=
  fun n => if n = "kokoro" then .ok ()
    else .error (.mk .importError "No module named 'f5_tts'" none)

/-- Witness for the amended C8: under `mixedCheck` only `"kokoro"` is kept. -/
theorem get_available_engines_ok_witness :
    getAvailableEngines mixedCheck =
      .ok (engineRegistryKeys.filter (fun n => exceptIsOk (mixedCheck n))) :=
  get_available_engines_ok mixedCheck
    (fun n => by
      by_cases hn : n = "kokoro"
      · exact Or.inl (by simp [mixedCheck, hn])
      · exact Or.inr ⟨"No module named 'f5_tts'", none, by simp [mixedCheck, hn]⟩)

/-! ## The catalog adapter: `KokoroBackend.__call__` (claim C6)

`self.pipeline(text, voice=..., speed=..., split_pattern=...)` is an
uninterpreted function from its argument record to the finite list of
results it streams; `getattr(self.pipeline, 'sample_rate', 24000)` is an
`Option Nat`.  The embedding of `__call__` returns, besides the normalized
results, the trace of pipeline invocations and the trace of
`load_single_voice` invocations the adapter itself makes, so that claims
about where voice-formula parsing happens are expressible. -/

/-- One invocation of the wrapped Kokoro pipeline. -/
structure KPipeArgs where
  text : String
  voice : String
  speed : ℚ
  split_pattern : Option String
deriving DecidableEq, Repr

/-- One streamed result of the wrapped pipeline; `graphemes`/`tokens` are
`Option`s because `__call__` probes them with `hasattr`. -/
structure KPipeResult (α : Type) where
  audio : α
  graphemes : Option (List String)
  tokens : Option (List Unit)
deriving DecidableEq, Repr

/-- Normalization of one pipeline result into a `TTSResult`:
`sample_rate = getattr(self.pipeline, 'sample_rate', 24000)`, and missing
`graphemes`/`tokens` become `[]`. -/
def kokoroNormalize {α : Type} (pipelineSampleRate : Option Nat)
    (r : KPipeResult α) : TTSResultM α :=
  { audio := r.audio
    sample_rate := pipelineSampleRate.getD 24000
    graphemes := r.graphemes.getD []
    tokens := r.tokens.getD [] }

/-- `KokoroBackend.__call__(text, voice, speed, split_pattern)`: one
pipeline invocation with the arguments passed through verbatim, each
streamed result re-wrapped.  Returns (pipeline-invocation trace,
`load_single_voice`-invocation trace, results); the second trace is empty
because the method never calls `load_single_voice`. -/
def kokoroCall {α : Type} (pipeline : KPipeArgs → List (KPipeResult α))
    (pipelineSampleRate : Option Nat) (text voice : String) (speed : ℚ)
    (split_pattern : Option String) :
    List KPipeArgs × List String × List (TTSResultM α) :=
  ([⟨text, voice, speed, split_pattern⟩],
   [],
   (pipeline ⟨text, voice, speed, split_pattern⟩).map
     (kokoroNormalize pipelineSampleRate))

/-- `KokoroBackend.load_single_voice(voice_name)`: a pure delegation to
`self.pipeline.load_single_voice`, available to external callers. -/
def kokoroLoadSingleVoice {β : Type} (pipelineLoad : String → β)
    (voice_name : String) : β :=
  pipelineLoad voice_name

/-- A concrete pipeline for evaluating the adapter: streams no results. -/
def kokoroCexPipeline : KPipeArgs → List (KPipeResult Nat) := fun _ => []

/-- Counterexample to C6 as stated: synthesizing with the formula
`"A*0.5 + B*0.5"`, the adapter issues zero `load_single_voice` calls — so it
does not itself load (let alone combine) the embeddings of `A` and `B` — and
its single pipeline invocation receives the formula string verbatim,
unparsed. -/
theorem kokoro_no_adapter_mixing_cex :
    (kokoroCall kokoroCexPipeline none "Hello world" "A*0.5 + B*0.5" 1 none).2.1
      = ([] : List String) ∧
    (kokoroCall kokoroCexPipeline none "Hello world" "A*0.5 + B*0.5" 1 none).1
      = [⟨"Hello world", "A*0.5 + B*0.5", 1, none⟩] :=
  ⟨rfl, rfl⟩

/-- C6 (amended): the catalog adapter does not parse a voice formula and
never invokes `LoadSingleVoice` during synthesis; it forwards the voice
argument (formula included) verbatim to the underlying pipeline in exactly
one invocation — any formula parsing, embedding loading and weighted
combination happens inside the wrapped third-party pipeline — and each
streamed result is normalized with the pipeline's sample rate, defaulting
to 24000; `LoadSingleVoice` is exposed as a direct delegation to the
pipeline for external callers. -/
theorem kokoro_forwards_formula_verbatim {α β : Type}
    (pipeline : KPipeArgs → List (KPipeResult α))
    (pipelineSampleRate : Option Nat) (pipelineLoad : String → β)
    (text voice : String) (speed : ℚ) (split_pattern : Option String) :
    (kokoroCall pipeline pipelineSampleRate text voice speed split_pattern).1 =
      [⟨text, voice, speed, split_pattern⟩] ∧
    (kokoroCall pipeline pipelineSampleRate text voice speed split_pattern).2.1 =
      ([] : List String) ∧
    (kokoroCall pipeline pipelineSampleRate text voice speed split_pattern).2.2 =
      (pipeline ⟨text, voice, speed, split_pattern⟩).map
        (kokoroNormalize pipelineSampleRate) ∧
    kokoroLoadSingleVoice pipelineLoad voice = pipelineLoad voice :=
  ⟨rfl, rfl, rfl, rfl⟩

end Abogen
